import Mathlib

/-!
Verification of `sysadmin/rhino-update.rs`, a one-shot update-and-cleanup
utility for Rhino Linux.

The program is embedded shallowly as a pure function from a process
environment (the user identity returned by `env::uid()`, the group
identity, the command-line arguments, and an oracle describing how the
operating system reacts to spawning a child process) to a trace of
observable console/process events together with the final process exit
code.  Machinery such as ANSI colour codes is cosmetic and not part of
the observable events; the events record which lines are printed and
which commands are attempted.
-/

namespace RhinoUpdate

/-- Result of asking the operating system to spawn a command.
`Except.error e` models an I/O failure launching the child (for example
the binary was not found), carrying the error text; `Except.ok st`
models a child that was started and terminated with status `st`, where
`some c` is a normal exit with code `c` and `none` is a child killed by
a signal (so `status.code()` is unavailable). -/
abbrev SpawnResult : Type := Except String (Option Nat)

/-- Observable events of a run: printed lines and spawn attempts, in
order.  Each constructor corresponds to one `print`/`exit`/`Command`
site of the source. -/
inductive Event where
  /-- The description line printed by `run` when the description is non-empty. -/
  | descLine (s : String)
  /-- The literal command line `cmd.join(" ")` printed by `run`. -/
  | cmdLine (s : String)
  /-- An attempt to launch the given token list (program then arguments). -/
  | spawned (toks : List String)
  /-- The message `Command failed with exit code: {:?}` with the raw `status.code()`. -/
  | failMsg (code : Option Nat)
  /-- The startup banner `🦏 Rhino Linux Update & Cleanup`. -/
  | banner
  /-- The message `This script must be run as root (sudo).` -/
  | privErr
  /-- The message `Error: {e}` printed by `main` for a propagated I/O error. -/
  | errMsg (e : String)
  /-- The message `✅ Rhino Linux is up-to-date and squeaky-clean!` -/
  | successMsg
deriving DecidableEq, Repr

/-- Result of the `run` function of the source: it either returns
`Ok(())`, returns an I/O error (the `?` on `.status()`), or terminates
the whole process via `std::process::exit` with the given code. -/
inductive RunOutcome where
  | ok
  | ioErr (e : String)
  | exited (code : Nat)
deriving DecidableEq, Repr

/-- Shallow embedding of `run(cmd, description)`.  It prints the
description (when non-empty) and the joined command line, takes the
first token as the program (`iter.next().unwrap_or(&"")`) and the rest
as arguments, and asks the spawn oracle for the status of the child.
A non-success status prints the failure message and exits the process
with `status.code().unwrap_or(1)`. -/
def run (spawn : List String → SpawnResult) (cmd : List String)
    (description : String) : List Event × RunOutcome :=
  let pre : List Event :=
    (if description ≠ "" then [Event.descLine description] else []) ++
      [Event.cmdLine (String.intercalate " " cmd)]
  let toks : List String := cmd.head?.getD "" :: cmd.tail
  let pre := pre ++ [Event.spawned toks]
  match spawn toks with
  | Except.error e => (pre, RunOutcome.ioErr e)
  | Except.ok st =>
      if st = some 0 then (pre, RunOutcome.ok)
      else (pre ++ [Event.failMsg st], RunOutcome.exited (st.getD 1))

/-- The process environment the program observes: the user identity
returned by `env::uid()`, the group identity and the command-line
arguments (both present in every process but never read by this
program), and the spawn oracle. -/
structure ProcEnv where
  uid : Nat
  gid : Nat
  args : List String
  spawn : List String → SpawnResult

/-- Final observable result of a whole process run. -/
structure MainResult where
  events : List Event
  exitCode : Nat
deriving DecidableEq, Repr

/-- The first step of the fixed sequence: `rpk update -y`. -/
def updateCmd : List String := ["rpk", "update", "-y"]

/-- The second step of the fixed sequence: `rpk cleanup -y`. -/
def cleanupCmd : List String := ["rpk", "cleanup", "-y"]

/-- Description string of the update step. -/
def updateDesc : String := "Updating all packages …"

/-- Description string of the cleanup step. -/
def cleanupDesc : String := "Purging orphaned packages …"

/-- Shallow embedding of `main()`.  It checks `env::uid() != 0`, prints
the banner, runs the two steps inside the closure (whose `?` propagates
I/O errors), maps a propagated error to `Error: {e}` plus exit 1, and
otherwise falls off the end of `main` printing the success line with
exit code 0.  A `RunOutcome.exited` from `run` is the process exit
performed inside `run` itself. -/
def mainRun (env : ProcEnv) : MainResult :=
  if env.uid ≠ 0 then ⟨[Event.privErr], 1⟩
  else
    let r1 := run env.spawn updateCmd updateDesc
    match r1.2 with
    | RunOutcome.exited c => ⟨Event.banner :: r1.1, c⟩
    | RunOutcome.ioErr e => ⟨Event.banner :: r1.1 ++ [Event.errMsg e], 1⟩
    | RunOutcome.ok =>
        let r2 := run env.spawn cleanupCmd cleanupDesc
        match r2.2 with
        | RunOutcome.exited c => ⟨Event.banner :: r1.1 ++ r2.1, c⟩
        | RunOutcome.ioErr e => ⟨Event.banner :: r1.1 ++ r2.1 ++ [Event.errMsg e], 1⟩
        | RunOutcome.ok => ⟨Event.banner :: r1.1 ++ r2.1 ++ [Event.successMsg], 0⟩

/-- The commands whose launch was attempted during a run, in order. -/
def spawnAttempts (evs : List Event) : List (List String) :=
  evs.filterMap fun e =>
    match e with
    | Event.spawned toks => some toks
    | _ => none

/-- The events `run` prints before consulting the spawn oracle: the
optional description line, the joined command line, and the spawn
attempt itself. -/
def preEvents (cmd : List String) (d : String) : List Event :=
  (if d ≠ "" then [Event.descLine d] else []) ++
    [Event.cmdLine (String.intercalate " " cmd),
      Event.spawned (cmd.head?.getD "" :: cmd.tail)]

theorem run_ioErr (spawn : List String → SpawnResult) (cmd : List String)
    (d e : String) (h : spawn (cmd.head?.getD "" :: cmd.tail) = Except.error e) :
    run spawn cmd d = (preEvents cmd d, RunOutcome.ioErr e) := by
  simp [run, preEvents, h]

theorem run_success (spawn : List String → SpawnResult) (cmd : List String)
    (d : String) (h : spawn (cmd.head?.getD "" :: cmd.tail) = Except.ok (some 0)) :
    run spawn cmd d = (preEvents cmd d, RunOutcome.ok) := by
  simp [run, preEvents, h]

theorem run_fail (spawn : List String → SpawnResult) (cmd : List String)
    (d : String) (st : Option Nat)
    (h : spawn (cmd.head?.getD "" :: cmd.tail) = Except.ok st) (hne : st ≠ some 0) :
    run spawn cmd d =
      (preEvents cmd d ++ [Event.failMsg st], RunOutcome.exited (st.getD 1)) := by
  simp [run, preEvents, h, hne]

theorem updateCmd_toks : updateCmd.head?.getD "" :: updateCmd.tail = updateCmd := rfl

theorem cleanupCmd_toks : cleanupCmd.head?.getD "" :: cleanupCmd.tail = cleanupCmd := rfl

theorem mainRun_nonroot (env : ProcEnv) (h : env.uid ≠ 0) :
    mainRun env = ⟨[Event.privErr], 1⟩ := by
  simp [mainRun, h]

theorem mainRun_update_ioErr (env : ProcEnv) (e : String) (h0 : env.uid = 0)
    (h : env.spawn updateCmd = Except.error e) :
    mainRun env =
      ⟨Event.banner :: preEvents updateCmd updateDesc ++ [Event.errMsg e], 1⟩ := by
  rw [mainRun]
  rw [if_neg (by simp [h0])]
  rw [run_ioErr env.spawn updateCmd updateDesc e (by rw [updateCmd_toks]; exact h)]

theorem mainRun_update_fail (env : ProcEnv) (st : Option Nat) (h0 : env.uid = 0)
    (h : env.spawn updateCmd = Except.ok st) (hne : st ≠ some 0) :
    mainRun env =
      ⟨Event.banner :: (preEvents updateCmd updateDesc ++ [Event.failMsg st]),
        st.getD 1⟩ := by
  rw [mainRun]
  rw [if_neg (by simp [h0])]
  rw [run_fail env.spawn updateCmd updateDesc st (by rw [updateCmd_toks]; exact h) hne]

theorem mainRun_cleanup_ioErr (env : ProcEnv) (e : String) (h0 : env.uid = 0)
    (h1 : env.spawn updateCmd = Except.ok (some 0))
    (h2 : env.spawn cleanupCmd = Except.error e) :
    mainRun env =
      ⟨Event.banner :: preEvents updateCmd updateDesc ++
        preEvents cleanupCmd cleanupDesc ++ [Event.errMsg e], 1⟩ := by
  rw [mainRun]
  rw [if_neg (by simp [h0])]
  rw [run_success env.spawn updateCmd updateDesc (by rw [updateCmd_toks]; exact h1)]
  rw [run_ioErr env.spawn cleanupCmd cleanupDesc e (by rw [cleanupCmd_toks]; exact h2)]

theorem mainRun_cleanup_fail (env : ProcEnv) (st : Option Nat) (h0 : env.uid = 0)
    (h1 : env.spawn updateCmd = Except.ok (some 0))
    (h2 : env.spawn cleanupCmd = Except.ok st) (hne : st ≠ some 0) :
    mainRun env =
      ⟨Event.banner :: preEvents updateCmd updateDesc ++
        (preEvents cleanupCmd cleanupDesc ++ [Event.failMsg st]), st.getD 1⟩ := by
  rw [mainRun]
  rw [if_neg (by simp [h0])]
  rw [run_success env.spawn updateCmd updateDesc (by rw [updateCmd_toks]; exact h1)]
  rw [run_fail env.spawn cleanupCmd cleanupDesc st (by rw [cleanupCmd_toks]; exact h2) hne]

theorem mainRun_all_ok (env : ProcEnv) (h0 : env.uid = 0)
    (h1 : env.spawn updateCmd = Except.ok (some 0))
    (h2 : env.spawn cleanupCmd = Except.ok (some 0)) :
    mainRun env =
      ⟨Event.banner :: preEvents updateCmd updateDesc ++
        preEvents cleanupCmd cleanupDesc ++ [Event.successMsg], 0⟩ := by
  rw [mainRun]
  rw [if_neg (by simp [h0])]
  rw [run_success env.spawn updateCmd updateDesc (by rw [updateCmd_toks]; exact h1)]
  rw [run_success env.spawn cleanupCmd cleanupDesc (by rw [cleanupCmd_toks]; exact h2)]

/-- Environment of a root run in which both commands succeed. -/
def envAllOk : ProcEnv := ⟨0, 0, [], fun _ => Except.ok (some 0)⟩

/-- Environment of a root run in which the first command exits with code 3. -/
def envUpdateFail3 : ProcEnv :=
  ⟨0, 0, [], fun toks => if toks = updateCmd then Except.ok (some 3) else Except.ok (some 0)⟩

/-- Environment of a root run in which every launch fails with an OS error. -/
def envLaunchFail : ProcEnv :=
  ⟨0, 0, [], fun _ => Except.error "No such file or directory (os error 2)"⟩

/-- Environment of a run by an unprivileged user (uid 1000). -/
def envNonroot : ProcEnv := ⟨1000, 1000, [], fun _ => Except.ok (some 0)⟩

/-- C1: for every invocation by the privileged identity in which both external
commands succeed, exactly two external commands are launched, in order:
first `rpk update -y`, then `rpk cleanup -y`, and the program exits with
code 0. -/
theorem c1_successful_run_two_commands (env : ProcEnv) (h0 : env.uid = 0)
    (h1 : env.spawn updateCmd = Except.ok (some 0))
    (h2 : env.spawn cleanupCmd = Except.ok (some 0)) :
    spawnAttempts (mainRun env).events =
      [["rpk", "update", "-y"], ["rpk", "cleanup", "-y"]] ∧
    (mainRun env).exitCode = 0 := by
  rw [mainRun_all_ok env h0 h1 h2]
  exact ⟨rfl, rfl⟩

/-- Witness for C1 at a concrete environment where both commands succeed. -/
theorem c1_successful_run_two_commands_witness :
    spawnAttempts (mainRun envAllOk).events =
      [["rpk", "update", "-y"], ["rpk", "cleanup", "-y"]] ∧
    (mainRun envAllOk).exitCode = 0 :=
  c1_successful_run_two_commands envAllOk rfl rfl rfl

/-- C2: in every run the spawn attempts form a prefix of the declared
sequence (update first, cleanup second), and the cleanup step is only
launched when the update step was launched and terminated with exit
status 0. -/
theorem c2_steps_in_order_guarded (env : ProcEnv) :
    spawnAttempts (mainRun env).events <+: [updateCmd, cleanupCmd] ∧
    (cleanupCmd ∈ spawnAttempts (mainRun env).events →
      env.spawn updateCmd = Except.ok (some 0)) := by
  by_cases h0 : env.uid = 0
  · rcases hu : env.spawn updateCmd with e | st
    · rw [mainRun_update_ioErr env e h0 hu]
      refine ⟨⟨[cleanupCmd], rfl⟩, fun hmem =>
        absurd (show cleanupCmd ∈ [updateCmd] from hmem) (by decide)⟩
    · by_cases hst : st = some 0
      · subst hst
        rcases hc : env.spawn cleanupCmd with e | st2
        · rw [mainRun_cleanup_ioErr env e h0 hu hc]
          exact ⟨⟨[], rfl⟩, fun _ => rfl⟩
        · by_cases hst2 : st2 = some 0
          · subst hst2
            rw [mainRun_all_ok env h0 hu hc]
            exact ⟨⟨[], rfl⟩, fun _ => rfl⟩
          · rw [mainRun_cleanup_fail env st2 h0 hu hc hst2]
            exact ⟨⟨[], rfl⟩, fun _ => rfl⟩
      · rw [mainRun_update_fail env st h0 hu hst]
        refine ⟨⟨[cleanupCmd], rfl⟩, fun hmem =>
          absurd (show cleanupCmd ∈ [updateCmd] from hmem) (by decide)⟩
  · rw [mainRun_nonroot env h0]
    exact ⟨⟨[updateCmd, cleanupCmd], rfl⟩, fun hmem =>
      absurd (show cleanupCmd ∈ ([] : List (List String)) from hmem) (by decide)⟩

/-- Witness for C2 at a concrete environment where the first command fails
with exit code 3, so only the update step is attempted. -/
theorem c2_steps_in_order_guarded_witness :
    spawnAttempts (mainRun envUpdateFail3).events <+: [updateCmd, cleanupCmd] ∧
    (cleanupCmd ∈ spawnAttempts (mainRun envUpdateFail3).events →
      envUpdateFail3.spawn updateCmd = Except.ok (some 0)) :=
  c2_steps_in_order_guarded envUpdateFail3

/-- C3: whenever an executed external command terminates with a non-zero
status, the program exits with that same code (falling back to 1 when the
child was killed by a signal and no code is available), after printing the
failure message containing the raw status. -/
theorem c3_command_failure_propagates_code (env : ProcEnv) (h0 : env.uid = 0) :
    (∀ st : Option Nat, env.spawn updateCmd = Except.ok st → st ≠ some 0 →
      (mainRun env).exitCode = st.getD 1 ∧
        Event.failMsg st ∈ (mainRun env).events) ∧
    (env.spawn updateCmd = Except.ok (some 0) →
      ∀ st : Option Nat, env.spawn cleanupCmd = Except.ok st → st ≠ some 0 →
        (mainRun env).exitCode = st.getD 1 ∧
          Event.failMsg st ∈ (mainRun env).events) := by
  constructor
  · intro st h hne
    rw [mainRun_update_fail env st h0 h hne]
    exact ⟨rfl, by simp⟩
  · intro h1 st h2 hne
    rw [mainRun_cleanup_fail env st h0 h1 h2 hne]
    exact ⟨rfl, by simp⟩

/-- Witness for C3 at a concrete environment where the first command exits
with code 3: the whole program exits with code 3 and prints the failure
message. -/
theorem c3_command_failure_propagates_code_witness :
    (mainRun envUpdateFail3).exitCode = (some 3 : Option Nat).getD 1 ∧
    Event.failMsg (some 3) ∈ (mainRun envUpdateFail3).events :=
  (c3_command_failure_propagates_code envUpdateFail3 rfl).1 (some 3) rfl (by decide)

/-- C4: every invocation by a non-privileged identity exits with code 1,
launches zero external commands, and produces no observable effect other
than the privilege error message. -/
theorem c4_nonroot_exits_one_no_commands (env : ProcEnv) (h : env.uid ≠ 0) :
    (mainRun env).exitCode = 1 ∧
    spawnAttempts (mainRun env).events = [] ∧
    (mainRun env).events = [Event.privErr] := by
  rw [mainRun_nonroot env h]
  exact ⟨rfl, rfl, rfl⟩

/-- Witness for C4 at a concrete environment with uid 1000. -/
theorem c4_nonroot_exits_one_no_commands_witness :
    (mainRun envNonroot).exitCode = 1 ∧
    spawnAttempts (mainRun envNonroot).events = [] ∧
    (mainRun envNonroot).events = [Event.privErr] :=
  c4_nonroot_exits_one_no_commands envNonroot (by decide)

theorem preEvents_update : preEvents updateCmd updateDesc =
    [Event.descLine updateDesc, Event.cmdLine "rpk update -y",
      Event.spawned updateCmd] := rfl

theorem preEvents_cleanup : preEvents cleanupCmd cleanupDesc =
    [Event.descLine cleanupDesc, Event.cmdLine "rpk cleanup -y",
      Event.spawned cleanupCmd] := rfl

theorem statusCode_getD_ne_zero (st : Option Nat) (h : st ≠ some 0) :
    st.getD 1 ≠ 0 := by
  cases st with
  | none => simp
  | some c =>
    simp only [Option.getD_some]
    exact fun hc => h (by simp [hc])

/-- C5: a failure to launch either command surfaces as exit code 1 with an
error message carrying the underlying cause, and that orchestrator error
path is reached only for launch failures, never for a command that ran
and returned non-zero. -/
theorem c5_launch_failure_exits_one (env : ProcEnv) (h0 : env.uid = 0) :
    (∀ e, env.spawn updateCmd = Except.error e →
      (mainRun env).exitCode = 1 ∧ Event.errMsg e ∈ (mainRun env).events) ∧
    (∀ e, env.spawn updateCmd = Except.ok (some 0) →
      env.spawn cleanupCmd = Except.error e →
      (mainRun env).exitCode = 1 ∧ Event.errMsg e ∈ (mainRun env).events) ∧
    (∀ e, Event.errMsg e ∈ (mainRun env).events →
      env.spawn updateCmd = Except.error e ∨
        (env.spawn updateCmd = Except.ok (some 0) ∧
          env.spawn cleanupCmd = Except.error e)) := by
  refine ⟨?_, ?_, ?_⟩
  · intro e h
    rw [mainRun_update_ioErr env e h0 h]
    exact ⟨rfl, by simp⟩
  · intro e h1 h2
    rw [mainRun_cleanup_ioErr env e h0 h1 h2]
    exact ⟨rfl, by simp⟩
  · intro e hmem
    rcases hu : env.spawn updateCmd with e1 | st
    · rw [mainRun_update_ioErr env e1 h0 hu] at hmem
      simp [preEvents_update] at hmem
      subst hmem
      exact Or.inl rfl
    · by_cases hst : st = some 0
      · subst hst
        rcases hc : env.spawn cleanupCmd with e2 | st2
        · rw [mainRun_cleanup_ioErr env e2 h0 hu hc] at hmem
          simp [preEvents_update, preEvents_cleanup] at hmem
          subst hmem
          exact Or.inr ⟨rfl, rfl⟩
        · by_cases hst2 : st2 = some 0
          · subst hst2
            rw [mainRun_all_ok env h0 hu hc] at hmem
            simp [preEvents_update, preEvents_cleanup] at hmem
          · rw [mainRun_cleanup_fail env st2 h0 hu hc hst2] at hmem
            simp [preEvents_update, preEvents_cleanup] at hmem
      · rw [mainRun_update_fail env st h0 hu hst] at hmem
        simp [preEvents_update] at hmem

/-- Witness for C5 at a concrete environment where every launch fails with
an OS error: the program exits 1 and prints the cause. -/
theorem c5_launch_failure_exits_one_witness :
    (mainRun envLaunchFail).exitCode = 1 ∧
    Event.errMsg "No such file or directory (os error 2)" ∈
      (mainRun envLaunchFail).events :=
  (c5_launch_failure_exits_one envLaunchFail rfl).1
    "No such file or directory (os error 2)" rfl

/-- C6 counterexample: with uid 0 and the first command exiting with code 3
the startup banner has already been printed although the run fails with
exit code 3, so the banner is not restricted to runs that exit 0. -/
theorem c6_counterexample_banner_on_failing_run :
    Event.banner ∈ (mainRun envUpdateFail3).events ∧
    (mainRun envUpdateFail3).exitCode = 3 ∧
    (mainRun envUpdateFail3).exitCode ≠ 0 := by
  decide

/-- C6 amended: the success message appears exactly on runs that exit with
code 0, while the startup banner appears exactly when the privilege check
passes (uid 0), including on failing runs. -/
theorem c6_amended_success_iff_exit_zero (env : ProcEnv) :
    (Event.successMsg ∈ (mainRun env).events ↔ (mainRun env).exitCode = 0) ∧
    (Event.banner ∈ (mainRun env).events ↔ env.uid = 0) := by
  by_cases h0 : env.uid = 0
  · rcases hu : env.spawn updateCmd with e | st
    · rw [mainRun_update_ioErr env e h0 hu]
      exact ⟨by simp [preEvents_update], by simp [h0]⟩
    · by_cases hst : st = some 0
      · subst hst
        rcases hc : env.spawn cleanupCmd with e2 | st2
        · rw [mainRun_cleanup_ioErr env e2 h0 hu hc]
          exact ⟨by simp [preEvents_update, preEvents_cleanup], by simp [h0]⟩
        · by_cases hst2 : st2 = some 0
          · subst hst2
            rw [mainRun_all_ok env h0 hu hc]
            exact ⟨by simp [preEvents_update, preEvents_cleanup], by simp [h0]⟩
          · have hne0 := statusCode_getD_ne_zero st2 hst2
            rw [mainRun_cleanup_fail env st2 h0 hu hc hst2]
            exact ⟨by simp [preEvents_update, preEvents_cleanup, hne0],
              by simp [h0]⟩
      · have hne0 := statusCode_getD_ne_zero st hst
        rw [mainRun_update_fail env st h0 hu hst]
        exact ⟨by simp [preEvents_update, hne0], by simp [h0]⟩
  · rw [mainRun_nonroot env h0]
    exact ⟨by simp, by simp [h0]⟩

/-- C7: the whole observable behaviour is a function of the user identity
and the spawn oracle alone, and the decision to proceed to any command
launch is exactly the comparison of that identity with 0. -/
theorem c7_decision_depends_only_on_uid :
    (∀ e1 e2 : ProcEnv, e1.uid = e2.uid → e1.spawn = e2.spawn →
      mainRun e1 = mainRun e2) ∧
    (∀ env : ProcEnv, spawnAttempts (mainRun env).events ≠ [] ↔ env.uid = 0) := by
  constructor
  · rintro ⟨u1, g1, a1, s1⟩ ⟨u2, g2, a2, s2⟩ hu hs
    obtain rfl : u1 = u2 := hu
    obtain rfl : s1 = s2 := hs
    rfl
  · intro env
    by_cases h0 : env.uid = 0
    · rcases hu : env.spawn updateCmd with e | st
      · rw [mainRun_update_ioErr env e h0 hu]
        exact iff_of_true (fun h => List.noConfusion h) h0
      · by_cases hst : st = some 0
        · subst hst
          rcases hc : env.spawn cleanupCmd with e2 | st2
          · rw [mainRun_cleanup_ioErr env e2 h0 hu hc]
            exact iff_of_true (fun h => List.noConfusion h) h0
          · by_cases hst2 : st2 = some 0
            · subst hst2
              rw [mainRun_all_ok env h0 hu hc]
              exact iff_of_true (fun h => List.noConfusion h) h0
            · rw [mainRun_cleanup_fail env st2 h0 hu hc hst2]
              exact iff_of_true (fun h => List.noConfusion h) h0
        · rw [mainRun_update_fail env st h0 hu hst]
          exact iff_of_true (fun h => List.noConfusion h) h0
    · rw [mainRun_nonroot env h0]
      exact iff_of_false (fun h => h rfl) h0

/-- C8: the step executor prints the description line exactly when the
description is non-empty, and in that case it precedes the literal command
line; the command line itself is always printed first otherwise. -/
theorem c8_description_skipped_when_empty (spawn : List String → SpawnResult)
    (cmd : List String) (d : String) :
    (d = "" → (∀ s, Event.descLine s ∉ (run spawn cmd d).1) ∧
      [Event.cmdLine (String.intercalate " " cmd)] <+: (run spawn cmd d).1) ∧
    (d ≠ "" → [Event.descLine d, Event.cmdLine (String.intercalate " " cmd)] <+:
      (run spawn cmd d).1) := by
  have hshape : (run spawn cmd d).1 = preEvents cmd d ∨
      ∃ st, (run spawn cmd d).1 = preEvents cmd d ++ [Event.failMsg st] := by
    rcases h : spawn (cmd.head?.getD "" :: cmd.tail) with e | st
    · rw [run_ioErr spawn cmd d e h]
      exact Or.inl rfl
    · by_cases hst : st = some 0
      · subst hst
        rw [run_success spawn cmd d h]
        exact Or.inl rfl
      · rw [run_fail spawn cmd d st h hst]
        exact Or.inr ⟨st, rfl⟩
  constructor
  · intro hd
    subst hd
    have hpre : preEvents cmd "" =
        [Event.cmdLine (String.intercalate " " cmd),
          Event.spawned (cmd.head?.getD "" :: cmd.tail)] := by
      simp [preEvents]
    rcases hshape with h | ⟨st, h⟩ <;> rw [h, hpre]
    · exact ⟨by simp, ⟨[Event.spawned (cmd.head?.getD "" :: cmd.tail)], rfl⟩⟩
    · exact ⟨by simp,
        ⟨[Event.spawned (cmd.head?.getD "" :: cmd.tail), Event.failMsg st], rfl⟩⟩
  · intro hd
    have hpre : preEvents cmd d =
        [Event.descLine d, Event.cmdLine (String.intercalate " " cmd),
          Event.spawned (cmd.head?.getD "" :: cmd.tail)] := by
      simp [preEvents, hd]
    rcases hshape with h | ⟨st, h⟩ <;> rw [h, hpre]
    · exact ⟨[Event.spawned (cmd.head?.getD "" :: cmd.tail)], rfl⟩
    · exact ⟨[Event.spawned (cmd.head?.getD "" :: cmd.tail), Event.failMsg st], rfl⟩

/-- Witness for C8 at a concrete step with empty and non-empty
descriptions over a concrete spawn oracle. -/
theorem c8_description_skipped_when_empty_witness :
    ((∀ s, Event.descLine s ∉ (run envAllOk.spawn ["rpk", "update", "-y"] "").1) ∧
      [Event.cmdLine "rpk update -y"] <+:
        (run envAllOk.spawn ["rpk", "update", "-y"] "").1) ∧
    ([Event.descLine "Updating all packages …", Event.cmdLine "rpk update -y"] <+:
      (run envAllOk.spawn ["rpk", "update", "-y"] "Updating all packages …").1) :=
  ⟨(c8_description_skipped_when_empty envAllOk.spawn ["rpk", "update", "-y"] "").1 rfl,
    (c8_description_skipped_when_empty envAllOk.spawn ["rpk", "update", "-y"]
      "Updating all packages …").2 (by decide)⟩

/-- Concrete spawn oracle that fails every launch, for the C9 witness. -/
def spawnNF : List String → SpawnResult := fun _ => Except.error "spawn failed"

/-- C9: on an empty command token sequence `run` does not crash: the empty
string is substituted as the program name (`unwrap_or(&"")`), and a spawn
failure on it surfaces as an I/O error value.  Totality of the embedded
function mirrors the absence of any panicking operation in the source. -/
theorem c9_empty_command_no_panic (spawn : List String → SpawnResult)
    (d e : String) (h : spawn [""] = Except.error e) :
    run spawn [] d =
      ((if d ≠ "" then [Event.descLine d] else []) ++
        [Event.cmdLine "", Event.spawned [""]], RunOutcome.ioErr e) :=
  run_ioErr spawn [] d e h

/-- Witness for C9 at a concrete all-failing spawn oracle and empty
description. -/
theorem c9_empty_command_no_panic_witness :
    run spawnNF [] "" =
      ([Event.cmdLine "", Event.spawned [""]], RunOutcome.ioErr "spawn failed") :=
  c9_empty_command_no_panic spawnNF "" "spawn failed" rfl

/-- Environment identical to `envAllOk` except for non-empty command-line
arguments, for the C10 witness. -/
def envWithArgs : ProcEnv := ⟨0, 0, ["--force", "extra"], fun _ => Except.ok (some 0)⟩

/-- C10: the observable behaviour never depends on the command-line
arguments: two environments agreeing on everything but the arguments
produce identical runs. -/
theorem c10_arguments_never_read (e1 e2 : ProcEnv) (hu : e1.uid = e2.uid)
    (hg : e1.gid = e2.gid) (hs : e1.spawn = e2.spawn) :
    mainRun e1 = mainRun e2 := by
  rcases e1 with ⟨u1, g1, a1, s1⟩
  rcases e2 with ⟨u2, g2, a2, s2⟩
  obtain rfl : u1 = u2 := hu
  obtain rfl : g1 = g2 := hg
  obtain rfl : s1 = s2 := hs
  rfl

/-- Witness for C10: two concrete environments differing only in the
arguments produce the same run. -/
theorem c10_arguments_never_read_witness :
    mainRun envAllOk = mainRun envWithArgs :=
  c10_arguments_never_read envAllOk envWithArgs rfl rfl rfl

end RhinoUpdate
